import Mathlib

/-!
Shallow embedding of the OpenThread BETS concurrency core of this repository:
the Event Worker thread (`_openthread_event_thread`, file `openthread_event_thread.c`)
and the Task Worker thread (`_openthread_task_thread`, file
`pkg/openthread/contrib/openthread_task_thread.c`), together with the
pid accessors, the tasklet-pending callback `otTaskletsSignalPending`
and the two startup entry points `openthread_event_init` /
`openthread_task_init`.

External collaborators (the OpenThread stack's tasklet engine, the radio
driver, the kernel's thread/msg/mutex primitives) are modelled at their
interface boundary: calls into them are recorded as `Action`s in a trace,
and the tasklet engine is abstracted to a count of pending tasklets that
each `otTaskletsProcess` call consumes.
-/

namespace OT

/-- Message discriminant tags. The numeric constants live in `ot.h`
(`OPENTHREAD_TASK_MSG_TYPE_EVENT`, `OPENTHREAD_NETDEV_MSG_TYPE_EVENT`, …);
we model them as a closed sum with an extra `unknown` constructor for
every tag matching none of the recognized kinds (the C `switch` has no
`default` case, so such tags fall through with no action). -/
inductive MsgType
  | taskEvent          -- OPENTHREAD_TASK_MSG_TYPE_EVENT (tasklet-pending)
  | netdevEvent        -- OPENTHREAD_NETDEV_MSG_TYPE_EVENT (radio-driver event)
  | linkRetryTimeout   -- OPENTHREAD_LINK_RETRY_TIMEOUT
  | radioBusy          -- OPENTHREAD_NETDEV_MSG_TYPE_RADIO_BUSY
  | millitimerEvent    -- OPENTHREAD_MILLITIMER_MSG_TYPE_EVENT
  | microtimerEvent    -- OPENTHREAD_MICROTIMER_MSG_TYPE_EVENT
  | serialEvent        -- OPENTHREAD_SERIAL_MSG_TYPE_EVENT
  | jobEvent           -- OPENTHREAD_JOB_MSG_TYPE_EVENT
  | unknown (tag : Nat)
deriving DecidableEq, Repr

/-- Serial buffer slot status (`serial_buffer_status` field of `serial_msg_t`
in `ot.h`). The Event Worker writes `OPENTHREAD_SERIAL_BUFFER_STATUS_FREE`
after feeding the bytes to the stack; the other state marks the slot in use. -/
inductive SerialBufferStatus
  | free     -- OPENTHREAD_SERIAL_BUFFER_STATUS_FREE
  | inUse
deriving DecidableEq, Repr

/-- `serial_msg_t`: a serial buffer slot (bytes, length, status flag). -/
structure SerialMsg where
  buf : List Nat
  length : Nat
  serial_buffer_status : SerialBufferStatus
deriving DecidableEq, Repr

/-- `ot_job_t`: a cross-thread command invocation record
(command name, argument, answer-buffer destination). -/
structure OtJob where
  command : String
  arg : String
  answer : String
deriving DecidableEq, Repr

/-- `msg_t`: discriminant tag plus the `content` union
(an integer `value` or a pointer to a serial buffer / job record;
we carry all payload shapes and the tag selects which one is read). -/
structure Msg where
  type : MsgType
  value : Nat
  serial : SerialMsg
  job : OtJob
deriving DecidableEq, Repr

/-- `NETDEV_EVENT_*` transmit outcomes forwarded to `sent_pkt`. -/
inductive NetdevEvent
  | txNoack        -- NETDEV_EVENT_TX_NOACK
  | txMediumBusy   -- NETDEV_EVENT_TX_MEDIUM_BUSY
deriving DecidableEq, Repr

/-- Observable calls into external collaborators, recorded in order. -/
inductive Action
  | msgReceive                               -- msg_receive(&msg)
  | taskletsProcess                          -- otTaskletsProcess(instance)
  | radioIsr                                 -- netdev->driver->isr(netdev)
  | irqDisable                               -- irq_disable()
  | decPendingIrq                            -- ((at86rf2xx_t *)netdev)->pending_irq--
  | irqRestore                               -- irq_restore(state)
  | sentPkt (e : NetdevEvent)                -- sent_pkt(instance, e)
  | alarmMilliFired                          -- otPlatAlarmMilliFired(instance)
  | alarmMicroFired                          -- otPlatAlarmMicroFired(instance)
  | wdtClear                                 -- wdt_clear()
  | uartReceived (buf : List Nat) (len : Nat)  -- otPlatUartReceived(buf, len)
  | setSerialFree                            -- serialBuffer->serial_buffer_status = FREE
  | execCommand (cmd arg answer : String)    -- ot_exec_command(instance, cmd, arg, answer)
  | reply (v : Int)                          -- msg_reply(&msg, &reply) with reply.content.value = v
  | clearTaskPending                         -- otTaskPending = false
  | msgSend (t : MsgType) (dest : Int)       -- msg_send(&msg, dest)
  | lockCoarse                               -- openthread_coarse_lock_buffer_mutex()
  | unlockCoarse                             -- openthread_coarse_unlock_buffer_mutex()
  | lockRadio                                -- lock_radio_mutex()
  | unlockRadio                              -- unlock_radio_mutex()
deriving DecidableEq, Repr

/-- Build configuration: which preprocessor modules are defined. -/
structure Config where
  ftd : Bool      -- MODULE_OPENTHREAD_FTD
  ncpFtd : Bool   -- MODULE_OPENTHREAD_NCP_FTD (the watchdog/NCP build)
deriving DecidableEq, Repr

/-- The file-scope mutable globals of the two source files:
`_event_pid` (event thread file), `_ot_task_pid` and `otTaskPending`
(task thread file). All are zero-initialized statics in C
(`kernel_pid_t` zero is `KERNEL_PID_UNDEF`, the unset pid;
`otTaskPending` is explicitly initialized to `false`). -/
structure Globals where
  eventPid : Int
  taskPid : Int
  otTaskPending : Bool
deriving DecidableEq, Repr

/-- The C static initial state: both pids unset, flag false. -/
def initGlobals : Globals := ⟨0, 0, false⟩

/-- `KERNEL_PID_UNDEF`: the unset thread identifier (0 in the RIOT kernel;
the zero-initialized value of the static pid variables). -/
def KERNEL_PID_UNDEF : Int := 0

/-- `EINVAL` (22), so `-EINVAL = -22`. -/
def EINVAL : Int := 22

/-- `openthread_get_event_pid`: read the Event Worker pid global. -/
def openthread_get_event_pid (g : Globals) : Int := g.eventPid

/-- `openthread_get_task_pid`: read the Task Worker pid global. -/
def openthread_get_task_pid (g : Globals) : Int := g.taskPid

/-- `openthread_event_init`: `_event_pid = thread_create(...);
if (_event_pid <= 0) return -EINVAL; return _event_pid;`.
The kernel primitive `thread_create` is external; its return value is
passed in as `threadCreateRes`. Note the assignment to the global happens
before the failure check. -/
def openthread_event_init (threadCreateRes : Int) (g : Globals) : Int × Globals :=
  let g1 : Globals := ⟨threadCreateRes, g.taskPid, g.otTaskPending⟩
  if g1.eventPid ≤ 0 then (-EINVAL, g1) else (g1.eventPid, g1)

/-- `openthread_task_init`: `_ot_task_pid = thread_create(...);
if (_ot_task_pid <= 0) return -EINVAL; return _ot_task_pid;`. -/
def openthread_task_init (threadCreateRes : Int) (g : Globals) : Int × Globals :=
  let g1 : Globals := ⟨g.eventPid, threadCreateRes, g.otTaskPending⟩
  if g1.taskPid ≤ 0 then (-EINVAL, g1) else (g1.taskPid, g1)

/-- `otTaskletsSignalPending`: if the calling thread is not the Event
Worker, send an `OPENTHREAD_TASK_MSG_TYPE_EVENT` message to the Event
Worker's pid; otherwise do nothing. The function reads
`openthread_get_event_pid()` and writes no global state, so the globals
pass through unchanged; the messages it sends are the returned trace. -/
def otTaskletsSignalPending (callerPid : Int) (g : Globals) :
    Globals × List Action :=
  if callerPid != openthread_get_event_pid g then
    (g, [Action.msgSend MsgType.taskEvent (openthread_get_event_pid g)])
  else
    (g, [])

/-- The stack's tasklet engine at its interface boundary: an abstract
count of pending tasklets; `otTaskletsProcess` consumes one. -/
structure Stack where
  pending : Nat
deriving DecidableEq, Repr

/-- `otTaskletsArePending(instance)`: does the stack report pending work? -/
def otTaskletsArePending (s : Stack) : Bool := s.pending != 0

/-- `otTaskletsProcess(instance)` at the interface boundary: run one unit
of pending work. -/
def otTaskletsProcess (s : Stack) : Stack := ⟨s.pending - 1⟩

/-- The drain loop shared by both workers:
`while (otTaskletsArePending(instance)) otTaskletsProcess(instance);`.
Returns the stack state at loop exit and the trace of process calls. -/
def drainLoop (s : Stack) : Stack × List Action :=
  if otTaskletsArePending s then
    let r := drainLoop (otTaskletsProcess s)
    (r.1, Action.taskletsProcess :: r.2)
  else
    (s, [])
termination_by s.pending
decreasing_by
  simp only [otTaskletsArePending, otTaskletsProcess, bne_iff_ne, ne_eq] at *
  omega

/-- The Event Worker's `switch (msg.type)` body
(`_openthread_event_thread`, lines 127–185). Given the build
configuration, the `ot_exec_command` oracle and the received message,
returns the trace of external calls and the (possibly updated) message
payload — the serial case writes `FREE` into the buffer the message
points to. A `case` label under a preprocessor guard is absent from the
compiled `switch` when its module is not defined, so the tag then falls
through with no action. -/
def eventDispatch (cfg : Config) (exec : String → String → String → Int)
    (msg : Msg) : List Action × Msg :=
  match msg.type with
  | MsgType.taskEvent =>
      -- wake-only: fall through to the drain on the next loop iteration
      ([], msg)
  | MsgType.netdevEvent =>
      (Action.radioIsr ::
        (if cfg.ftd then
          (if msg.value != 0 then
            [Action.irqDisable, Action.decPendingIrq, Action.irqRestore]
          else [])
        else []), msg)
  | MsgType.linkRetryTimeout =>
      ([Action.sentPkt NetdevEvent.txNoack], msg)
  | MsgType.radioBusy =>
      ([Action.sentPkt NetdevEvent.txMediumBusy], msg)
  | MsgType.millitimerEvent =>
      ([Action.alarmMilliFired], msg)
  | MsgType.microtimerEvent =>
      (if cfg.ftd then [Action.alarmMicroFired] else [], msg)
  | MsgType.serialEvent =>
      ((if cfg.ncpFtd then [Action.wdtClear] else []) ++
        [Action.uartReceived msg.serial.buf msg.serial.length,
         Action.setSerialFree],
       ⟨msg.type, msg.value,
        ⟨msg.serial.buf, msg.serial.length, SerialBufferStatus.free⟩,
        msg.job⟩)
  | MsgType.jobEvent =>
      ([Action.execCommand msg.job.command msg.job.arg msg.job.answer,
        Action.reply (exec msg.job.command msg.job.arg msg.job.answer)],
       msg)
  | MsgType.unknown _ =>
      ([], msg)

/-- One iteration of the Event Worker's main loop: drain all pending
tasklets, block at `msg_receive`, then dispatch on the tag. Returns the
trace, the stack state after the drain (which is the state in effect at
the `msg_receive` call) and the updated message payload. -/
def eventIter (cfg : Config) (exec : String → String → String → Int)
    (s : Stack) (msg : Msg) : List Action × Stack × Msg :=
  let d := drainLoop s
  let h := eventDispatch cfg exec msg
  (d.2 ++ Action.msgReceive :: h.1, d.1, h.2)

/-- The Task Worker's `switch (msg.type)` body
(`_openthread_task_thread`, lines 64–98). Returns the trace and the new
value of the `otTaskPending` flag (the only global this switch writes). -/
def taskDispatch (cfg : Config) (flag : Bool) (msg : Msg) :
    List Action × Bool :=
  match msg.type with
  | MsgType.taskEvent =>
      ([Action.clearTaskPending], false)
  | MsgType.microtimerEvent =>
      (if cfg.ftd then [Action.alarmMicroFired] else [], flag)
  | MsgType.netdevEvent =>
      ([Action.lockRadio, Action.radioIsr, Action.unlockRadio], flag)
  | MsgType.radioBusy =>
      ([Action.sentPkt NetdevEvent.txMediumBusy], flag)
  | MsgType.linkRetryTimeout =>
      ([Action.sentPkt NetdevEvent.txNoack], flag)
  | MsgType.millitimerEvent => ([], flag)
  | MsgType.serialEvent => ([], flag)
  | MsgType.jobEvent => ([], flag)
  | MsgType.unknown _ => ([], flag)

/-- One iteration of the Task Worker's main loop: block at `msg_receive`,
acquire the coarse buffer mutex, dispatch on the tag, drain all pending
tasklets, release the coarse buffer mutex. Returns the trace, the new
`otTaskPending` flag and the stack state after the drain. -/
def taskIter (cfg : Config) (flag : Bool) (s : Stack) (msg : Msg) :
    List Action × Bool × Stack :=
  let h := taskDispatch cfg flag msg
  let d := drainLoop s
  (Action.msgReceive :: Action.lockCoarse ::
    (h.1 ++ d.2 ++ [Action.unlockCoarse]), h.2, d.1)

/-! ## Supporting lemmas about the drain loop -/

theorem drainLoop_eq_replicate (n : Nat) :
    drainLoop ⟨n⟩ = (⟨0⟩, List.replicate n Action.taskletsProcess) := by
  induction n with
  | zero =>
      rw [drainLoop]
      simp [otTaskletsArePending]
  | succ k ih =>
      rw [drainLoop]
      simp [otTaskletsArePending, otTaskletsProcess, ih, List.replicate_succ]

theorem drainLoop_fst (s : Stack) : (drainLoop s).1 = ⟨0⟩ := by
  cases s with
  | mk n => rw [drainLoop_eq_replicate]

theorem drainLoop_snd (s : Stack) :
    (drainLoop s).2 = List.replicate s.pending Action.taskletsProcess := by
  cases s with
  | mk n => rw [drainLoop_eq_replicate]

/-! ## Claim theorems -/

/-- C1 (counterexample): the claim that after a failed thread creation the
pid accessor still returns its unset value is false. With a thread-create
stub returning −1 (non-positive, i.e. failure) from the initial state,
`openthread_event_init` does return `-EINVAL`, but the accessor
afterwards returns −1, not the unset value `KERNEL_PID_UNDEF` (0): the
failing return value was assigned to the global before the check. -/
theorem C1_counterexample :
    (-1 : Int) ≤ 0 ∧
    (openthread_event_init (-1) initGlobals).1 = -EINVAL ∧
    ¬ openthread_get_event_pid (openthread_event_init (-1) initGlobals).2
        = KERNEL_PID_UNDEF := by
  decide

/-- C1 (amended): for either worker's create-and-start entry point, if
thread creation fails (returns a non-positive pid) the call returns
`-EINVAL`, and if it succeeds the call returns the new worker identifier;
in both cases the pid accessor afterwards returns exactly the value
thread creation returned (so on failure it holds that non-positive
value — not necessarily the unset value — and no valid positive worker
identifier is published). -/
theorem C1_init_result (r : Int) (g : Globals) :
    (openthread_event_init r g).1 = (if r ≤ 0 then -EINVAL else r) ∧
    openthread_get_event_pid (openthread_event_init r g).2 = r ∧
    (openthread_task_init r g).1 = (if r ≤ 0 then -EINVAL else r) ∧
    openthread_get_task_pid (openthread_task_init r g).2 = r := by
  refine ⟨?_, ?_, ?_, ?_⟩ <;>
    · simp only [openthread_event_init, openthread_task_init,
        openthread_get_event_pid, openthread_get_task_pid]
      split_ifs <;> rfl

/-- C2 (counterexample): the claim that `otTaskletsSignalPending` re-sets
the pending-task flag to true whenever it runs is false. Running the
callback from a thread (pid 5) that is not the Event Worker (pid 1) with
the flag false does send a wake message, yet the flag stays false: the
callback never writes `otTaskPending`. -/
theorem C2_counterexample :
    (otTaskletsSignalPending 5 ⟨1, 2, false⟩).2 ≠ [] ∧
    ¬ (otTaskletsSignalPending 5 ⟨1, 2, false⟩).1.otTaskPending = true := by
  decide

/-- C2 (amended): the pending-task flag `otTaskPending` is cleared (set to
false) by the Task Worker exactly when it processes a tasklet-pending
(task-class) message and is left unchanged by every other message kind;
`otTaskletsSignalPending` does not write the flag (it only sends a wake
message); and no Event Worker dispatch writes the flag. -/
theorem C2_flag_writes (cfg : Config) (flag : Bool) (msg : Msg)
    (callerPid : Int) (g : Globals)
    (exec : String → String → String → Int) :
    ((taskDispatch cfg flag msg).2 =
      (if msg.type = MsgType.taskEvent then false else flag)) ∧
    (Action.clearTaskPending ∈ (taskDispatch cfg flag msg).1 ↔
      msg.type = MsgType.taskEvent) ∧
    ((otTaskletsSignalPending callerPid g).1.otTaskPending =
      g.otTaskPending) ∧
    (Action.clearTaskPending ∉ (eventDispatch cfg exec msg).1) := by
  obtain ⟨f, w⟩ := cfg
  refine ⟨?_, ?_, ?_, ?_⟩
  · cases h : msg.type <;> cases f <;> simp [taskDispatch, h]
  · cases h : msg.type <;> cases f <;> simp [taskDispatch, h]
  · unfold otTaskletsSignalPending
    split <;> rfl
  · cases h : msg.type <;> cases f <;> cases w <;>
      cases hv : msg.value != 0 <;> simp [eventDispatch, h, hv]

/-- C10: `otTaskletsSignalPending` leaves all globals unchanged and sends
exactly one tasklet-pending message to the Event Worker's pid (the value
`openthread_get_event_pid` returns) when the calling thread is not the
Event Worker, and sends nothing when the Event Worker calls it from its
own context. -/
theorem C10_signal_pending_target (callerPid : Int) (g : Globals) :
    (otTaskletsSignalPending callerPid g).1 = g ∧
    (otTaskletsSignalPending callerPid g).2 =
      (if callerPid = openthread_get_event_pid g then []
       else [Action.msgSend MsgType.taskEvent (openthread_get_event_pid g)]) := by
  unfold otTaskletsSignalPending
  constructor
  · split <;> rfl
  · by_cases h : callerPid = openthread_get_event_pid g <;> simp [h]

/-- C3: in every iteration of the Event Worker's main loop, the trace is
exactly the full drain of all pending tasklets (one `otTaskletsProcess`
call per pending unit, i.e. repeated while `otTaskletsArePending` holds)
followed by the single blocking `msg_receive` and the dispatch; and the
stack state in effect at the `msg_receive` call reports no pending
tasklets. -/
theorem C3_drain_before_receive (cfg : Config)
    (exec : String → String → String → Int) (s : Stack) (msg : Msg) :
    (eventIter cfg exec s msg).1 =
      List.replicate s.pending Action.taskletsProcess ++
        Action.msgReceive :: (eventDispatch cfg exec msg).1 ∧
    otTaskletsArePending (eventIter cfg exec s msg).2.1 = false := by
  constructor
  · show (drainLoop s).2 ++ Action.msgReceive :: (eventDispatch cfg exec msg).1 = _
    rw [drainLoop_snd]
  · show otTaskletsArePending (drainLoop s).1 = false
    rw [drainLoop_fst]
    rfl

/-- C4: in every Task Worker loop iteration the trace is the blocking
receive, then the coarse-buffer-mutex acquisition, then a body (tag
dispatch followed by the full tasklet drain) containing no coarse lock
operation and no receive, then the coarse release — so the coarse mutex
is taken immediately after the receive, held through dispatch and drain,
and released before the next receive. The radio mutex appears exactly in
the radio-driver-event case, as the contiguous prefix
lock-radio / radio-ISR / unlock-radio of the body (strictly nested inside
the coarse mutex, released immediately after the single ISR call); for
every other tag no radio lock operation and no ISR call occurs. -/
theorem C4_task_locking (cfg : Config) (flag : Bool) (s : Stack) (msg : Msg) :
    ∃ body,
      (taskIter cfg flag s msg).1 =
        Action.msgReceive :: Action.lockCoarse ::
          (body ++ [Action.unlockCoarse]) ∧
      Action.lockCoarse ∉ body ∧
      Action.unlockCoarse ∉ body ∧
      Action.msgReceive ∉ body ∧
      (if msg.type = MsgType.netdevEvent then
        body = [Action.lockRadio, Action.radioIsr, Action.unlockRadio] ++
          (drainLoop s).2
       else
        Action.lockRadio ∉ body ∧ Action.unlockRadio ∉ body ∧
          Action.radioIsr ∉ body) := by
  refine ⟨(taskDispatch cfg flag msg).1 ++ (drainLoop s).2, rfl, ?_, ?_, ?_, ?_⟩
  all_goals
    obtain ⟨f, w⟩ := cfg
    cases h : msg.type <;> cases f <;>
      simp [taskDispatch, h, drainLoop_snd, List.mem_replicate]

/-- A reply action (a `msg_reply` call)? -/
def isReplyAction : Action → Bool
  | Action.reply _ => true
  | _ => false

/-- C5: for every job-request message the Event Worker executes the named
command with the given argument and answer buffer against the stack, and
the trace contains exactly one reply, whose value is the integer result
of that command execution (the reply follows the execution). -/
theorem C5_job_reply (cfg : Config) (exec : String → String → String → Int)
    (v : Nat) (sb : SerialMsg) (jb : OtJob) :
    Action.execCommand jb.command jb.arg jb.answer ∈
      (eventDispatch cfg exec ⟨MsgType.jobEvent, v, sb, jb⟩).1 ∧
    (eventDispatch cfg exec ⟨MsgType.jobEvent, v, sb, jb⟩).1.filter
        isReplyAction =
      [Action.reply (exec jb.command jb.arg jb.answer)] ∧
    (eventDispatch cfg exec ⟨MsgType.jobEvent, v, sb, jb⟩).1 =
      [Action.execCommand jb.command jb.arg jb.answer,
       Action.reply (exec jb.command jb.arg jb.answer)] := by
  refine ⟨?_, ?_, rfl⟩ <;> simp [eventDispatch, isReplyAction]

/-- C6: for every serial-data-available message the Event Worker passes
the buffer's bytes and length to `otPlatUartReceived`, and only
afterwards sets the buffer slot's status to FREE (the status write is the
last action of the handler, and the returned buffer is FREE); on watchdog
(NCP-FTD) builds the watchdog clear comes before everything else. -/
theorem C6_serial_free_after_uart (cfg : Config)
    (exec : String → String → String → Int) (v : Nat) (sb : SerialMsg)
    (jb : OtJob) :
    (eventDispatch cfg exec
        ⟨MsgType.serialEvent, v, sb, jb⟩).2.serial.serial_buffer_status =
      SerialBufferStatus.free ∧
    (eventDispatch cfg exec ⟨MsgType.serialEvent, v, sb, jb⟩).1 =
      (if cfg.ncpFtd then [Action.wdtClear] else []) ++
        [Action.uartReceived sb.buf sb.length, Action.setSerialFree] ∧
    (eventDispatch cfg exec ⟨MsgType.serialEvent, v, sb, jb⟩).1.getLast? =
      some Action.setSerialFree := by
  obtain ⟨f, w⟩ := cfg
  cases w <;> simp [eventDispatch]

/-- C7: the Task Worker's handling of radio-busy and link-retry-timeout
messages is extensionally equal to the Event Worker's handling of the
same tags: the same single `sent_pkt` call with the medium-busy outcome
for radio-busy and the no-acknowledgement outcome for link-retry-timeout. -/
theorem C7_task_event_equal (cfg : Config) (flag : Bool)
    (exec : String → String → String → Int) (v : Nat) (sb : SerialMsg)
    (jb : OtJob) :
    (taskDispatch cfg flag ⟨MsgType.radioBusy, v, sb, jb⟩).1 =
      (eventDispatch cfg exec ⟨MsgType.radioBusy, v, sb, jb⟩).1 ∧
    (taskDispatch cfg flag ⟨MsgType.radioBusy, v, sb, jb⟩).1 =
      [Action.sentPkt NetdevEvent.txMediumBusy] ∧
    (taskDispatch cfg flag ⟨MsgType.linkRetryTimeout, v, sb, jb⟩).1 =
      (eventDispatch cfg exec ⟨MsgType.linkRetryTimeout, v, sb, jb⟩).1 ∧
    (taskDispatch cfg flag ⟨MsgType.linkRetryTimeout, v, sb, jb⟩).1 =
      [Action.sentPkt NetdevEvent.txNoack] :=
  ⟨rfl, rfl, rfl, rfl⟩

/-- C8 (counterexample): the claim that on FTD builds every
radio-driver-event message decrements the pending-interrupt counter
exactly once is false: on an FTD build, a radio-driver-event message
whose payload value is 0 triggers the radio ISR but no decrement at all
(the code guards the decrement with `if (msg.content.value)`). -/
theorem C8_counterexample :
    (eventDispatch ⟨true, false⟩ (fun _ _ _ => 0)
        ⟨MsgType.netdevEvent, 0, ⟨[], 0, SerialBufferStatus.inUse⟩,
          ⟨"", "", ""⟩⟩).1 = [Action.radioIsr] ∧
    ¬ ((eventDispatch ⟨true, false⟩ (fun _ _ _ => 0)
        ⟨MsgType.netdevEvent, 0, ⟨[], 0, SerialBufferStatus.inUse⟩,
          ⟨"", "", ""⟩⟩).1.count Action.decPendingIrq = 1) := by
  decide

/-- C8 (amended): for every radio-driver-event message the Event Worker
invokes the radio driver's interrupt-service entry point (first action,
exactly once); on FTD builds, when the message's payload value is
nonzero, the pending-interrupt counter is decremented exactly once with
interrupts disabled around the decrement, and otherwise (payload value
zero, or non-FTD build) no decrement occurs. -/
theorem C8_radio_event (cfg : Config) (exec : String → String → String → Int)
    (v : Nat) (sb : SerialMsg) (jb : OtJob) :
    (eventDispatch cfg exec ⟨MsgType.netdevEvent, v, sb, jb⟩).1.head? =
      some Action.radioIsr ∧
    (eventDispatch cfg exec ⟨MsgType.netdevEvent, v, sb, jb⟩).1 =
      Action.radioIsr ::
        (if cfg.ftd && (v != 0) then
          [Action.irqDisable, Action.decPendingIrq, Action.irqRestore]
         else []) ∧
    (eventDispatch cfg exec
        ⟨MsgType.netdevEvent, v, sb, jb⟩).1.count Action.decPendingIrq =
      (if cfg.ftd && (v != 0) then 1 else 0) := by
  obtain ⟨f, w⟩ := cfg
  cases f <;> cases hv : v != 0 <;> simp [eventDispatch, hv]

/-- C9: a message whose tag matches none of the recognized kinds produces
no action in either worker's dispatch (no stack callback, no radio call,
no reply, no flag write, no payload change), and the loop iteration still
completes normally: the Event Worker's iteration is just the drain and
the receive, and the Task Worker's iteration is just the receive and the
unconditional lock / drain / unlock. -/
theorem C9_unknown_tag_noop (cfg : Config)
    (exec : String → String → String → Int) (flag : Bool) (s : Stack)
    (n : Nat) (v : Nat) (sb : SerialMsg) (jb : OtJob) :
    (eventDispatch cfg exec ⟨MsgType.unknown n, v, sb, jb⟩).1 = [] ∧
    (eventDispatch cfg exec ⟨MsgType.unknown n, v, sb, jb⟩).2 =
      ⟨MsgType.unknown n, v, sb, jb⟩ ∧
    (taskDispatch cfg flag ⟨MsgType.unknown n, v, sb, jb⟩).1 = [] ∧
    (taskDispatch cfg flag ⟨MsgType.unknown n, v, sb, jb⟩).2 = flag ∧
    (eventIter cfg exec s ⟨MsgType.unknown n, v, sb, jb⟩).1 =
      (drainLoop s).2 ++ [Action.msgReceive] ∧
    (taskIter cfg flag s ⟨MsgType.unknown n, v, sb, jb⟩).1 =
      Action.msgReceive :: Action.lockCoarse ::
        ((drainLoop s).2 ++ [Action.unlockCoarse]) :=
  ⟨rfl, rfl, rfl, rfl, rfl, rfl⟩

end OT
